import Mathlib

/-!
Verification development for the SolarSentinel DePIN AI server
(`ai-server/models/isolation_forest.py`, `ai-server/data/generate_training_data.py`,
`ai-server/server.py`).

The Python code is shallowly embedded: sensor values are rationals, the
score-to-confidence transform is over the reals (idealising IEEE floats),
and the external statistical library calls (`IsolationForest.fit`,
`predict`, `score_samples`, the seeded shuffle inside `train_test_split`,
`np.random.uniform`, `np.random.shuffle`, `joblib.load`) are abstracted as
function parameters whose documented contracts appear as hypotheses.
Stateful Python methods become functions from the old state to the new
state; a raised exception becomes an `Option`/`Except` failure value, and
an HTTP handler returns the new model state and a response.
-/

open Filter Real

/-! ## Definitions

### Score-to-confidence transform (`IsolationForestModel._calculate_confidence`)

Python source:
```
normalized = 1 / (1 + np.exp(-anomaly_score * 10))
if anomaly_score < 0:
    confidence = 1 - normalized
else:
    confidence = normalized
confidence = max(0.0, min(1.0, confidence))
```
-/

/-- Logistic function, used by the spec's formula `sigmoid(10 * score)`. -/
noncomputable def sigmoid (x : ℝ) : ℝ := 1 / (1 + Real.exp (-x))

/-- Embedding of `IsolationForestModel._calculate_confidence`. -/
noncomputable def calculate_confidence (anomaly_score : ℝ) : ℝ :=
  let normalized : ℝ := 1 / (1 + Real.exp (-anomaly_score * 10))
  let confidence : ℝ := if anomaly_score < 0 then 1 - normalized else normalized
  max 0 (min 1 confidence)

/-- The pre-clamp value computed by `_calculate_confidence`. -/
noncomputable def raw_confidence (s : ℝ) : ℝ :=
  if s < 0 then 1 - sigmoid (10 * s) else sigmoid (10 * s)

/-!
### Synthetic data generator (`generate_training_data.generate_synthetic_data`)

Python source (counts):
```
num_normal = int(num_samples * 0.90)
num_dust = int(num_samples * 0.05)
num_overheat = int(num_samples * 0.03)
num_voltage_drop = num_samples - num_normal - num_dust - num_overheat
```
then four loops of `np.random.uniform` draws over the per-regime closed
ranges, followed by `np.random.shuffle(data)`.

The seeded numpy generator is abstracted as a stream `rand : ℕ → ℚ` of unit
draws (`np.random.uniform(lo, hi) = lo + (hi - lo) * u` with `u` in [0, 1]),
and `np.random.shuffle` as a `shuffle` function whose library contract —
it permutes the list — appears as a hypothesis where needed.
-/

structure Reading where
  voltage : ℚ
  temperature : ℚ
  power_output : ℚ
deriving DecidableEq

/-- numpy draw `np.random.uniform(lo, hi)` applied to the unit draw `u`. -/
def uniform (lo hi u : ℚ) : ℚ := lo + (hi - lo) * u

def num_normal (num_samples : ℕ) : ℕ := 9 * num_samples / 10

def num_dust (num_samples : ℕ) : ℕ := 5 * num_samples / 100

def num_overheat (num_samples : ℕ) : ℕ := 3 * num_samples / 100

def num_voltage_drop (num_samples : ℕ) : ℕ :=
  num_samples - num_normal num_samples - num_dust num_samples - num_overheat num_samples

/-- One generation loop: `cnt` readings, each consuming three consecutive
unit draws starting at stream position `start`. -/
def genBlock (rand : ℕ → ℚ) (start cnt : ℕ)
    (vlo vhi tlo thi plo phi : ℚ) : List Reading :=
  (List.range cnt).map fun i =>
    { voltage := uniform vlo vhi (rand (start + 3 * i)),
      temperature := uniform tlo thi (rand (start + 3 * i + 1)),
      power_output := uniform plo phi (rand (start + 3 * i + 2)) }

def normal_block (num_samples : ℕ) (rand : ℕ → ℚ) : List Reading :=
  genBlock rand 0 (num_normal num_samples) 11.5 12.5 25 35 180 220

def dust_block (num_samples : ℕ) (rand : ℕ → ℚ) : List Reading :=
  genBlock rand (3 * num_normal num_samples) (num_dust num_samples) 10.5 11.5 30 38 120 170

def overheat_block (num_samples : ℕ) (rand : ℕ → ℚ) : List Reading :=
  genBlock rand (3 * (num_normal num_samples + num_dust num_samples))
    (num_overheat num_samples) 10 11 40 48 100 150

def voltage_drop_block (num_samples : ℕ) (rand : ℕ → ℚ) : List Reading :=
  genBlock rand
    (3 * (num_normal num_samples + num_dust num_samples + num_overheat num_samples))
    (num_voltage_drop num_samples) 9 10.5 25 35 80 130

/-- Embedding of `generate_synthetic_data`. -/
def generate_synthetic_data (num_samples : ℕ) (rand : ℕ → ℚ)
    (shuffle : List Reading → List Reading) : List Reading :=
  shuffle (normal_block num_samples rand ++ dust_block num_samples rand ++
    overheat_block num_samples rand ++ voltage_drop_block num_samples rand)

/-- A reading lies in the closed box given by per-field bounds. -/
def inBox (r : Reading) (vlo vhi tlo thi plo phi : ℚ) : Prop :=
  r.voltage ∈ Set.Icc vlo vhi ∧ r.temperature ∈ Set.Icc tlo thi ∧
    r.power_output ∈ Set.Icc plo phi

/-!
### Anomaly model (`IsolationForestModel`)

The fitted sklearn estimator is abstracted as a `Detector` giving the
binary label (`predict`: 1 normal, −1 anomaly) and the raw anomaly score
(`score_samples`) of a feature row. The mutable object state is the record
`IsolationForestModel`; `{}` for `validation_metrics` maps to `none`.
-/

structure Detector where
  label : ℚ → ℚ → ℚ → ℤ
  score : ℚ → ℚ → ℚ → ℚ

structure Metrics where
  precision : ℚ
  «recall» : ℚ
  f1_score : ℚ
  confusion_matrix : (ℕ × ℕ) × (ℕ × ℕ)
  test_samples : ℕ
deriving DecidableEq

structure IsolationForestModel where
  model : Detector
  is_trained : Bool
  training_samples : ℕ
  validation_metrics : Option Metrics

/-- A raw JSON training entry: `d['voltage']` etc. may be absent (`none`),
which makes the feature-matrix construction raise a `KeyError`. -/
structure RawReading where
  voltage : Option ℚ
  temperature : Option ℚ
  power_output : Option ℚ
deriving DecidableEq

def Reading.toRaw (r : Reading) : RawReading :=
  ⟨some r.voltage, some r.temperature, some r.power_output⟩

/-- One row `[d['voltage'], d['temperature'], d['power_output']]` of the
feature matrix; fails on a missing key. -/
def getFeature (d : RawReading) : Option (ℚ × ℚ × ℚ) :=
  match d.voltage, d.temperature, d.power_output with
  | some v, some t, some p => some (v, t, p)
  | _, _, _ => none

/-- The feature matrix `X = np.array([[d['voltage'], d['temperature'],
d['power_output']] for d in training_data])`. -/
def build_features (l : List RawReading) : Option (List (ℚ × ℚ × ℚ)) :=
  l.mapM getFeature

/-- Feature rows of well-formed readings, in the fixed column order
[voltage, temperature, power_output]. -/
def featuresOf (l : List Reading) : List (ℚ × ℚ × ℚ) :=
  l.map fun r => (r.voltage, r.temperature, r.power_output)

/-- sklearn test-set size for `test_size=0.2`: `ceil(0.2 * n)`. -/
def n_test_of (n : ℕ) : ℕ := (n + 4) / 5

/-- Embedding of `train_test_split(X, test_size=0.2, random_state=42)`:
the seeded shuffle is the abstract permutation `perm`; the test split is
the first `ceil(0.2 n)` entries of the shuffled data and the train split is
the rest. Returns `(X_train, X_test)`. -/
def train_test_split (perm : List (ℚ × ℚ × ℚ) → List (ℚ × ℚ × ℚ))
    (X : List (ℚ × ℚ × ℚ)) : List (ℚ × ℚ × ℚ) × List (ℚ × ℚ × ℚ) :=
  ((perm X).drop (n_test_of X.length), (perm X).take (n_test_of X.length))

/-- Heuristic proxy ground truth used during validation:
`-1 if (sample[0] < 10 or sample[1] > 40 or sample[2] < 100) else 1`. -/
def heuristic_label (x : ℚ × ℚ × ℚ) : ℤ :=
  if x.1 < 10 ∨ x.2.1 > 40 ∨ x.2.2 < 100 then -1 else 1

/-- Conversion to binary labels: `(y == -1).astype(int)`. -/
def to_binary (y : ℤ) : ℕ := if y = -1 then 1 else 0

/-- Number of positions where the true binary label is `a` and the
predicted binary label is `b` (an entry of sklearn's confusion matrix). -/
def countPair (y_true_binary y_pred_binary : List ℕ) (a b : ℕ) : ℕ :=
  ((y_true_binary.zip y_pred_binary).filter fun q => q.1 == a && q.2 == b).length

/-- sklearn `precision_score(..., zero_division=0)` from counts. -/
def precision_score (tp fp : ℕ) : ℚ :=
  if tp + fp = 0 then 0 else tp / (tp + fp)

/-- sklearn `recall_score(..., zero_division=0)` from counts. -/
def recall_score (tp fn : ℕ) : ℚ :=
  if tp + fn = 0 then 0 else tp / (tp + fn)

/-- sklearn `f1_score(..., zero_division=0)` from counts. -/
def f1_score (tp fp fn : ℕ) : ℚ :=
  if 2 * tp + fp + fn = 0 then 0 else 2 * tp / (2 * tp + fp + fn)

/-- The validation block of `train`: detector predictions on the test
split against the heuristic proxy labels, reduced to binary labels and to
precision / recall / F1 / confusion matrix. -/
def validation_of (det : Detector) (X_test : List (ℚ × ℚ × ℚ)) : Metrics :=
  let y_true_binary := (X_test.map heuristic_label).map to_binary
  let y_pred_binary := (X_test.map fun x => det.label x.1 x.2.1 x.2.2).map to_binary
  let tn := countPair y_true_binary y_pred_binary 0 0
  let fp := countPair y_true_binary y_pred_binary 0 1
  let fn := countPair y_true_binary y_pred_binary 1 0
  let tp := countPair y_true_binary y_pred_binary 1 1
  { precision := precision_score tp fp,
    «recall» := recall_score tp fn,
    f1_score := f1_score tp fp fn,
    confusion_matrix := ((tn, fp), (fn, tp)),
    test_samples := X_test.length }

/-- Library behaviour visible to `train`: the seeded shuffle used by
`train_test_split`, and `IsolationForest.fit` as a partial function
(`none` models a raised library error, e.g. on non-numeric data). -/
structure TrainEnv where
  perm : List (ℚ × ℚ × ℚ) → List (ℚ × ℚ × ℚ)
  fit : List (ℚ × ℚ × ℚ) → Option Detector

/-- Embedding of `IsolationForestModel.train`. Mutation order follows the
source: `training_samples` is assigned as soon as the feature matrix is
built, before the fit; `is_trained` and the metrics only after a successful
fit. The second component is the returned metrics, `none` when the call
raises. -/
def train (env : TrainEnv) (self : IsolationForestModel)
    (training_data : List RawReading) : IsolationForestModel × Option Metrics :=
  match build_features training_data with
  | none => (self, none)
  | some X =>
    let self1 := { self with training_samples := X.length }
    match env.fit (train_test_split env.perm X).1 with
    | none => (self1, none)
    | some det =>
      let m := validation_of det (train_test_split env.perm X).2
      ({ self1 with
          model := det,
          is_trained := true,
          validation_metrics := some m }, some m)

structure PredResult where
  prediction : String
  confidence : ℝ
  model_version : String
  anomaly_score : ℚ

/-- Embedding of `IsolationForestModel.predict`. -/
noncomputable def predict (self : IsolationForestModel)
    (voltage temperature power_output : ℚ) : Except String PredResult :=
  if self.is_trained = false then
    Except.error "Model not trained. Call train() first."
  else
    let prediction_value := self.model.label voltage temperature power_output
    let anomaly_score := self.model.score voltage temperature power_output
    Except.ok
      { prediction := if prediction_value = 1 then "Normal" else "Failure Likely",
        confidence := calculate_confidence (anomaly_score : ℝ),
        model_version := "v1.0-isolation-forest",
        anomaly_score := anomaly_score }

/-- Embedding of `IsolationForestModel.load_model`: `loaded` is the result
of `joblib.load` (`none` models a raised deserialization error; any loaded
value is accepted without inspection). The Bool is success. -/
def load_model (self : IsolationForestModel) (loaded : Option Detector) :
    IsolationForestModel × Bool :=
  match loaded with
  | none => (self, false)
  | some m => ({ self with model := m, is_trained := true }, true)

/-!
### Spec-side validation quantities (for claim C6)

Independent phrasing of the heuristic rule and the confusion counts, to be
compared with what `train` stores.
-/

/-- A test sample is heuristically anomalous exactly when
voltage < 10 OR temperature > 40 OR power_output < 100. -/
def heuristic_anomaly (x : ℚ × ℚ × ℚ) : Bool :=
  decide (x.1 < 10 ∨ x.2.1 > 40 ∨ x.2.2 < 100)

/-- The detector flags a sample as an anomaly (predicts −1). -/
def det_flags_anomaly (det : Detector) (x : ℚ × ℚ × ℚ) : Bool :=
  decide (det.label x.1 x.2.1 x.2.2 = -1)

/-- Number of test samples whose heuristic label is `ht` and whose
detector label is `hp` (true = anomalous). -/
def spec_count (det : Detector) (test : List (ℚ × ℚ × ℚ)) (ht hp : Bool) : ℕ :=
  (test.filter fun x => heuristic_anomaly x == ht && det_flags_anomaly det x == hp).length

/-!
### HTTP service (`server.py`)

A response is its status code and the `error` field of the JSON body
(`none` when the request succeeded). JSON field values are embedded as
`JsonVal`; `dict.get` returns `none` both for an absent key and for an
explicit JSON `null`. Python booleans compare numerically, so they pass
the range checks; strings and other values raise a `TypeError` there,
which the broad `except` turns into a 500.
-/

structure HttpResponse where
  status : ℕ
  error : Option String
deriving DecidableEq

/-- Body of a /retrain request: the optional `training_data` field. -/
structure RetrainBody where
  training_data : Option (List RawReading)

/-- Embedding of the `/retrain` handler. `body = none` models a request
whose `get_json()` yields no dict (the subsequent attribute access raises,
caught by the broad `except` as a 500). -/
def retrain (env : TrainEnv) (model : IsolationForestModel)
    (body : Option RetrainBody) : IsolationForestModel × HttpResponse :=
  match body with
  | none => (model, ⟨500, some "Retraining failed"⟩)
  | some b =>
    match b.training_data with
    | none => (model, ⟨400, some "Need at least 100 training samples"⟩)
    | some td =>
      if td.length < 100 then
        (model, ⟨400, some "Need at least 100 training samples"⟩)
      else
        match train env model td with
        | (m2, some _) => (m2, ⟨200, none⟩)
        | (m2, none) => (m2, ⟨500, some "Retraining failed"⟩)

inductive JsonVal where
  | num (q : ℚ)
  | str (s : String)
  | boolean (b : Bool)
  | null
deriving DecidableEq

/-- `data.get(key)`: an explicit JSON null is indistinguishable from an
absent key (both give Python `None`). -/
def pyGet (v : Option JsonVal) : Option JsonVal :=
  match v with
  | some JsonVal.null => none
  | x => x

/-- Values that Python's numeric comparisons accept: numbers and booleans
(`True`/`False` compare as 1/0); anything else raises a `TypeError`. -/
def asNum (v : JsonVal) : Option ℚ :=
  match v with
  | JsonVal.num q => some q
  | JsonVal.boolean b => some (if b then 1 else 0)
  | _ => none

structure PredictBody where
  voltage : Option JsonVal
  temperature : Option JsonVal
  power_output : Option JsonVal

/-- Embedding of the `/predict` handler, following the source order:
falsy/absent JSON → 400; missing field → 400; the out-of-range warnings
evaluate `8 <= voltage <= 14` etc., so a non-numeric value raises there and
the broad `except` answers 500 with error field "Prediction failed"; then
absent or untrained model → 500; otherwise the model's result → 200. -/
noncomputable def predict_route (model : Option IsolationForestModel)
    (body : Option PredictBody) : HttpResponse :=
  match body with
  | none => ⟨400, some "No JSON data provided"⟩
  | some b =>
    match pyGet b.voltage, pyGet b.temperature, pyGet b.power_output with
    | some v, some t, some p =>
      match asNum v, asNum t, asNum p with
      | some qv, some qt, some qp =>
        match model with
        | none => ⟨500, some "Model not trained. Run training first."⟩
        | some m =>
          if m.is_trained then
            match predict m qv qt qp with
            | Except.ok _ => ⟨200, none⟩
            | Except.error _ => ⟨500, some "Prediction failed"⟩
          else ⟨500, some "Model not trained. Run training first."⟩
      | _, _, _ => ⟨500, some "Prediction failed"⟩
    | _, _, _ => ⟨400, some "Missing required fields: voltage, temperature, power_output"⟩

/-! ### Concrete objects used by witnesses and counterexamples -/

/-- A detector that labels everything normal with score 0. -/
def d0 : Detector := ⟨fun _ _ _ => 1, fun _ _ _ => 0⟩

/-- A freshly constructed model (state after `__init__`). -/
def untrained_model : IsolationForestModel := ⟨d0, false, 0, none⟩

/-- A previously trained model with 5 recorded training samples. -/
def trained_model5 : IsolationForestModel := ⟨d0, true, 5, none⟩

/-- Library environment whose fit always succeeds with `d0` and whose
seeded shuffle is the identity permutation. -/
def env0 : TrainEnv := ⟨id, fun _ => some d0⟩

/-- Library environment whose fit call always raises. -/
def env_fit_fails : TrainEnv := ⟨id, fun _ => none⟩

/-- Three syntactically well-formed readings (the feature matrix builds,
so `training_samples` is assigned before the failing fit). -/
def data3 : List RawReading :=
  [⟨some 12, some 30, some 200⟩, ⟨some 12, some 30, some 200⟩,
   ⟨some 12, some 30, some 200⟩]

/-- Five readings for exercising the training pipeline. -/
def readings5 : List Reading :=
  [⟨12, 30, 200⟩, ⟨12, 30, 200⟩, ⟨12, 30, 200⟩, ⟨12, 30, 200⟩, ⟨9, 45, 50⟩]

/-! ## Theorems -/

theorem one_add_exp_pos (x : ℝ) : 0 < 1 + Real.exp x := by positivity

theorem sigmoid_pos (x : ℝ) : 0 < sigmoid x := by
  unfold sigmoid; positivity

theorem sigmoid_lt_one (x : ℝ) : sigmoid x < 1 := by
  unfold sigmoid
  rw [div_lt_one (one_add_exp_pos (-x))]
  linarith [Real.exp_pos (-x)]

theorem half_le_sigmoid {x : ℝ} (hx : 0 ≤ x) : 1 / 2 ≤ sigmoid x := by
  unfold sigmoid
  rw [div_le_div_iff₀ (by norm_num) (one_add_exp_pos (-x))]
  have h1 : Real.exp (-x) ≤ 1 := Real.exp_le_one_iff.mpr (by linarith)
  linarith

theorem sigmoid_lt_half {x : ℝ} (hx : x < 0) : sigmoid x < 1 / 2 := by
  unfold sigmoid
  rw [div_lt_div_iff₀ (one_add_exp_pos (-x)) (by norm_num)]
  have h1 : 1 < Real.exp (-x) := Real.one_lt_exp_iff.mpr (by linarith)
  linarith

theorem normalized_eq_sigmoid (s : ℝ) :
    1 / (1 + Real.exp (-s * 10)) = sigmoid (10 * s) := by
  unfold sigmoid
  have h : -s * 10 = -(10 * s) := by ring
  rw [h]

theorem calculate_confidence_eq_clamp (s : ℝ) :
    calculate_confidence s = max 0 (min 1 (raw_confidence s)) := by
  unfold calculate_confidence raw_confidence
  rw [normalized_eq_sigmoid]

theorem raw_confidence_mem (s : ℝ) :
    1 / 2 ≤ raw_confidence s ∧ raw_confidence s < 1 := by
  unfold raw_confidence
  rcases lt_or_le s 0 with h | h
  · rw [if_pos h]
    have h1 : sigmoid (10 * s) < 1 / 2 := sigmoid_lt_half (by linarith)
    have h2 : 0 < sigmoid (10 * s) := sigmoid_pos _
    constructor <;> linarith
  · rw [if_neg (not_lt.mpr h)]
    exact ⟨half_le_sigmoid (by linarith), sigmoid_lt_one _⟩

theorem clamp_id {x : ℝ} (h0 : 0 ≤ x) (h1 : x ≤ 1) : max 0 (min 1 x) = x := by
  rw [min_eq_right h1, max_eq_right h0]

theorem calculate_confidence_eq_raw (s : ℝ) :
    calculate_confidence s = raw_confidence s := by
  obtain ⟨h1, h2⟩ := raw_confidence_mem s
  rw [calculate_confidence_eq_clamp, clamp_id (by linarith) (le_of_lt h2)]

theorem sigmoid_comp_tendsto_atTop :
    Tendsto (fun s : ℝ => sigmoid (10 * s)) atTop (nhds 1) := by
  have hexp : Tendsto (fun x : ℝ => Real.exp (-x)) atTop (nhds 0) :=
    Real.tendsto_exp_atBot.comp tendsto_neg_atTop_atBot
  have hden : Tendsto (fun x : ℝ => 1 + Real.exp (-x)) atTop (nhds 1) := by
    simpa using tendsto_const_nhds.add hexp
  have hsig : Tendsto sigmoid atTop (nhds 1) := by
    have hone : Tendsto (fun _ : ℝ => (1 : ℝ)) atTop (nhds 1) := tendsto_const_nhds
    have := hone.div hden one_ne_zero
    simpa [sigmoid] using this
  have hmul : Tendsto (fun s : ℝ => 10 * s) atTop atTop :=
    Tendsto.const_mul_atTop (by norm_num) tendsto_id
  exact hsig.comp hmul

theorem sigmoid_comp_tendsto_atBot :
    Tendsto (fun s : ℝ => sigmoid (10 * s)) atBot (nhds 0) := by
  have hexp : Tendsto (fun x : ℝ => Real.exp (-x)) atBot atTop :=
    Real.tendsto_exp_atTop.comp tendsto_neg_atBot_atTop
  have hden : Tendsto (fun x : ℝ => 1 + Real.exp (-x)) atBot atTop :=
    tendsto_atTop_add_const_left _ 1 hexp
  have hsig : Tendsto sigmoid atBot (nhds 0) := by
    have h := hden.inv_tendsto_atTop
    have he : (fun x : ℝ => 1 + Real.exp (-x))⁻¹ =
        fun x : ℝ => (1 + Real.exp (-x))⁻¹ := rfl
    rw [he] at h
    unfold sigmoid
    simp only [one_div]
    exact h
  have hmul : Tendsto (fun s : ℝ => 10 * s) atBot atBot :=
    Tendsto.const_mul_atBot (by norm_num) tendsto_id
  exact hsig.comp hmul

theorem calculate_confidence_tendsto_atTop :
    Tendsto calculate_confidence atTop (nhds 1) := by
  have h : Tendsto raw_confidence atTop (nhds 1) := by
    refine sigmoid_comp_tendsto_atTop.congr' ?_
    filter_upwards [eventually_ge_atTop (0 : ℝ)] with s hs
    unfold raw_confidence
    rw [if_neg (not_lt.mpr hs)]
  exact h.congr fun s => (calculate_confidence_eq_raw s).symm

theorem calculate_confidence_tendsto_atBot :
    Tendsto calculate_confidence atBot (nhds 1) := by
  have h : Tendsto raw_confidence atBot (nhds 1) := by
    have h1 : Tendsto (fun s : ℝ => 1 - sigmoid (10 * s)) atBot (nhds 1) := by
      simpa using sigmoid_comp_tendsto_atBot.const_sub 1
    refine h1.congr' ?_
    filter_upwards [eventually_lt_atBot (0 : ℝ)] with s hs
    unfold raw_confidence
    rw [if_pos hs]
  exact h.congr fun s => (calculate_confidence_eq_raw s).symm

/-- C1: the confidence computation equals sigmoid(10·s) for s ≥ 0 and
1 − sigmoid(10·s) for s < 0, clamped to [0,1]; the result always lies in
[0,1], equals 1/2 at s = 0, and tends to 1 as s → +∞ and as s → −∞. -/
theorem C1_confidence_formula :
    (∀ s : ℝ, calculate_confidence s =
      max 0 (min 1 (if 0 ≤ s then sigmoid (10 * s) else 1 - sigmoid (10 * s)))) ∧
    (∀ s : ℝ, calculate_confidence s ∈ Set.Icc (0 : ℝ) 1) ∧
    calculate_confidence 0 = 1 / 2 ∧
    Tendsto calculate_confidence atTop (nhds 1) ∧
    Tendsto calculate_confidence atBot (nhds 1) := by
  refine ⟨?_, ?_, ?_, calculate_confidence_tendsto_atTop, calculate_confidence_tendsto_atBot⟩
  · intro s
    rw [calculate_confidence_eq_clamp]
    unfold raw_confidence
    rcases lt_or_le s 0 with h | h
    · rw [if_pos h, if_neg (not_le.mpr h)]
    · rw [if_neg (not_lt.mpr h), if_pos h]
  · intro s
    rw [calculate_confidence_eq_raw]
    obtain ⟨h1, h2⟩ := raw_confidence_mem s
    exact ⟨by linarith, le_of_lt h2⟩
  · rw [calculate_confidence_eq_raw]
    unfold raw_confidence
    rw [if_neg (lt_irrefl 0), show (10 : ℝ) * 0 = 0 by ring]
    unfold sigmoid
    rw [neg_zero, Real.exp_zero]
    norm_num

/-- C9: the confidence is always at least 1/2 and strictly below 1, and the
final clamp to [0,1] never changes the computed value. -/
theorem C9_confidence_lower_half :
    ∀ s : ℝ, 1 / 2 ≤ calculate_confidence s ∧ calculate_confidence s < 1 ∧
      calculate_confidence s =
        (if s < 0 then 1 - (1 / (1 + Real.exp (-s * 10)))
         else 1 / (1 + Real.exp (-s * 10))) := by
  intro s
  obtain ⟨h1, h2⟩ := raw_confidence_mem s
  refine ⟨by rw [calculate_confidence_eq_raw]; exact h1,
          by rw [calculate_confidence_eq_raw]; exact h2, ?_⟩
  rw [calculate_confidence_eq_raw]
  unfold raw_confidence
  rw [normalized_eq_sigmoid]

theorem genBlock_length (rand : ℕ → ℚ) (start cnt : ℕ)
    (vlo vhi tlo thi plo phi : ℚ) :
    (genBlock rand start cnt vlo vhi tlo thi plo phi).length = cnt := by
  simp [genBlock]

/-- C2: the generator returns exactly N readings, partitioned as
floor(0.90 N) normal, floor(0.05 N) dust, floor(0.03 N) overheat readings
and the remainder as voltage-drop readings, the four counts summing to N. -/
theorem C2_generate_counts (N : ℕ) (rand : ℕ → ℚ)
    (shuffle : List Reading → List Reading)
    (hs : ∀ l, List.Perm (shuffle l) l) :
    (generate_synthetic_data N rand shuffle).length = N ∧
    (num_normal N : ℤ) = ⌊(0.90 : ℚ) * N⌋ ∧
    (num_dust N : ℤ) = ⌊(0.05 : ℚ) * N⌋ ∧
    (num_overheat N : ℤ) = ⌊(0.03 : ℚ) * N⌋ ∧
    num_voltage_drop N = N - num_normal N - num_dust N - num_overheat N ∧
    num_normal N + num_dust N + num_overheat N + num_voltage_drop N = N := by
  have e1 : num_normal N = 9 * N / 10 := rfl
  have e2 : num_dust N = 5 * N / 100 := rfl
  have e3 : num_overheat N = 3 * N / 100 := rfl
  have e4 : num_voltage_drop N = N - num_normal N - num_dust N - num_overheat N := rfl
  have hsum : num_normal N + num_dust N + num_overheat N + num_voltage_drop N = N := by
    omega
  refine ⟨?_, ?_, ?_, ?_, rfl, hsum⟩
  · unfold generate_synthetic_data
    rw [(hs _).length_eq]
    simp only [List.length_append, normal_block, dust_block, overheat_block,
      voltage_drop_block, genBlock_length]
    omega
  · rw [show (0.90 : ℚ) * N = ((9 * N : ℕ) : ℚ) / ((10 : ℕ) : ℚ) by
      rw [show (0.90 : ℚ) = 9 / 10 by norm_num]; push_cast; ring]
    rw [Rat.floor_natCast_div_natCast]
    omega
  · rw [show (0.05 : ℚ) * N = ((5 * N : ℕ) : ℚ) / ((100 : ℕ) : ℚ) by
      rw [show (0.05 : ℚ) = 5 / 100 by norm_num]; push_cast; ring]
    rw [Rat.floor_natCast_div_natCast]
    omega
  · rw [show (0.03 : ℚ) * N = ((3 * N : ℕ) : ℚ) / ((100 : ℕ) : ℚ) by
      rw [show (0.03 : ℚ) = 3 / 100 by norm_num]; push_cast; ring]
    rw [Rat.floor_natCast_div_natCast]
    omega

/-- Witness for C2 at N = 20 with the identity shuffle. -/
theorem C2_witness :
    (generate_synthetic_data 20 (fun _ => 0) id).length = 20 ∧
    num_normal 20 + num_dust 20 + num_overheat 20 + num_voltage_drop 20 = 20 :=
  ⟨(C2_generate_counts 20 (fun _ => 0) id (fun l => List.Perm.refl l)).1,
   (C2_generate_counts 20 (fun _ => 0) id (fun l => List.Perm.refl l)).2.2.2.2.2⟩

theorem uniform_mem {lo hi u : ℚ} (hle : lo ≤ hi) (h0 : 0 ≤ u) (h1 : u ≤ 1) :
    lo ≤ uniform lo hi u ∧ uniform lo hi u ≤ hi := by
  unfold uniform
  constructor
  · nlinarith
  · nlinarith

theorem genBlock_mem_box {rand : ℕ → ℚ} (hu : ∀ k, 0 ≤ rand k ∧ rand k ≤ 1)
    (start cnt : ℕ) {vlo vhi tlo thi plo phi : ℚ}
    (hv : vlo ≤ vhi) (ht : tlo ≤ thi) (hp : plo ≤ phi) :
    ∀ r ∈ genBlock rand start cnt vlo vhi tlo thi plo phi,
      inBox r vlo vhi tlo thi plo phi := by
  intro r hr
  unfold genBlock at hr
  simp only [List.mem_map, List.mem_range] at hr
  obtain ⟨i, _, rfl⟩ := hr
  exact ⟨Set.mem_Icc.mpr (uniform_mem hv (hu _).1 (hu _).2),
         Set.mem_Icc.mpr (uniform_mem ht (hu _).1 (hu _).2),
         Set.mem_Icc.mpr (uniform_mem hp (hu _).1 (hu _).2)⟩

/-- C5: every reading of each generation block lies in that regime's
documented closed box, and hence every reading of the (shuffled) generated
list lies in one of the four boxes. -/
theorem C5_regime_ranges (N : ℕ) (rand : ℕ → ℚ)
    (shuffle : List Reading → List Reading)
    (hu : ∀ k, 0 ≤ rand k ∧ rand k ≤ 1)
    (hs : ∀ l, List.Perm (shuffle l) l) :
    (∀ r ∈ normal_block N rand, inBox r 11.5 12.5 25 35 180 220) ∧
    (∀ r ∈ dust_block N rand, inBox r 10.5 11.5 30 38 120 170) ∧
    (∀ r ∈ overheat_block N rand, inBox r 10 11 40 48 100 150) ∧
    (∀ r ∈ voltage_drop_block N rand, inBox r 9 10.5 25 35 80 130) ∧
    (∀ r ∈ generate_synthetic_data N rand shuffle,
      inBox r 11.5 12.5 25 35 180 220 ∨ inBox r 10.5 11.5 30 38 120 170 ∨
        inBox r 10 11 40 48 100 150 ∨ inBox r 9 10.5 25 35 80 130) := by
  have h1 := genBlock_mem_box hu 0 (num_normal N)
    (show (11.5 : ℚ) ≤ 12.5 by norm_num) (show (25 : ℚ) ≤ 35 by norm_num)
    (show (180 : ℚ) ≤ 220 by norm_num)
  have h2 := genBlock_mem_box hu (3 * num_normal N) (num_dust N)
    (show (10.5 : ℚ) ≤ 11.5 by norm_num) (show (30 : ℚ) ≤ 38 by norm_num)
    (show (120 : ℚ) ≤ 170 by norm_num)
  have h3 := genBlock_mem_box hu (3 * (num_normal N + num_dust N)) (num_overheat N)
    (show (10 : ℚ) ≤ 11 by norm_num) (show (40 : ℚ) ≤ 48 by norm_num)
    (show (100 : ℚ) ≤ 150 by norm_num)
  have h4 := genBlock_mem_box hu
    (3 * (num_normal N + num_dust N + num_overheat N)) (num_voltage_drop N)
    (show (9 : ℚ) ≤ 10.5 by norm_num) (show (25 : ℚ) ≤ 35 by norm_num)
    (show (80 : ℚ) ≤ 130 by norm_num)
  refine ⟨h1, h2, h3, h4, ?_⟩
  intro r hr
  unfold generate_synthetic_data at hr
  have hmem := (hs _).mem_iff.mp hr
  simp only [List.mem_append] at hmem
  rcases hmem with ((hm | hm) | hm) | hm
  · exact Or.inl (h1 r hm)
  · exact Or.inr (Or.inl (h2 r hm))
  · exact Or.inr (Or.inr (Or.inl (h3 r hm)))
  · exact Or.inr (Or.inr (Or.inr (h4 r hm)))

/-- Witness for C5: readings produced by the overheat and voltage-drop
blocks at N = 40 with the constant unit draw 0 lie in their boxes. -/
theorem C5_witness :
    inBox ⟨10, 40, 100⟩ 10 11 40 48 100 150 ∧
    inBox ⟨9, 25, 80⟩ 9 10.5 25 35 80 130 := by
  have h := C5_regime_ranges 40 (fun _ => 0) id
    (fun _ => ⟨le_refl 0, by norm_num⟩) (fun l => List.Perm.refl l)
  refine ⟨h.2.2.1 ⟨10, 40, 100⟩ ?_, h.2.2.2.1 ⟨9, 25, 80⟩ ?_⟩
  · simp [overheat_block, genBlock, num_overheat, uniform]
  · simp [voltage_drop_block, genBlock, num_voltage_drop, num_normal,
      num_dust, num_overheat, uniform]

theorem train_build_fail {env : TrainEnv} {self : IsolationForestModel}
    {data : List RawReading} (hb : build_features data = none) :
    train env self data = (self, none) := by
  unfold train
  rw [hb]

theorem train_fit_fail {env : TrainEnv} {self : IsolationForestModel}
    {data : List RawReading} {X : List (ℚ × ℚ × ℚ)}
    (hb : build_features data = some X)
    (hf : env.fit (train_test_split env.perm X).1 = none) :
    train env self data = ({ self with training_samples := X.length }, none) := by
  unfold train
  rw [hb]
  simp only [hf]

theorem train_success {env : TrainEnv} {self : IsolationForestModel}
    {data : List RawReading} {X : List (ℚ × ℚ × ℚ)} {det : Detector}
    (hb : build_features data = some X)
    (hf : env.fit (train_test_split env.perm X).1 = some det) :
    train env self data =
      ({ model := det, is_trained := true, training_samples := X.length,
         validation_metrics :=
           some (validation_of det (train_test_split env.perm X).2) },
       some (validation_of det (train_test_split env.perm X).2)) := by
  unfold train
  rw [hb]
  simp only [hf]

/-- Counterexample to C3: starting from a state recording 5 training
samples, a train call on three well-formed readings whose library fit
raises still fails, yet afterwards `training_samples` is 3, not 5 — the
observable state is not left exactly as it was before the call. -/
theorem C3_counterexample :
    (train env_fit_fails trained_model5 data3).2 = none ∧
    (train env_fit_fails trained_model5 data3).1.training_samples ≠
      trained_model5.training_samples := by
  constructor
  · rfl
  · decide

/-- C3 (amended): if train raises, the trained flag, the fitted model and
the stored validation metrics are unchanged — so a failed /retrain leaves
the prior trained model intact — and the whole state is unchanged when the
failure happens while building the feature matrix; `training_samples`,
however, is assigned before the fit and may change. -/
theorem C3_train_failure_state (env : TrainEnv) (self : IsolationForestModel)
    (data : List RawReading) (h : (train env self data).2 = none) :
    (train env self data).1.is_trained = self.is_trained ∧
    (train env self data).1.validation_metrics = self.validation_metrics ∧
    (train env self data).1.model = self.model ∧
    (build_features data = none → (train env self data).1 = self) := by
  cases hb : build_features data with
  | none =>
    rw [train_build_fail hb]
    exact ⟨rfl, rfl, rfl, fun _ => rfl⟩
  | some X =>
    cases hf : env.fit (train_test_split env.perm X).1 with
    | none =>
      rw [train_fit_fail hb hf]
      refine ⟨rfl, rfl, rfl, fun hc => ?_⟩
      exact Option.noConfusion hc
    | some det =>
      rw [train_success hb hf] at h
      cases h

/-- Witness for the amended C3 at the counterexample input. -/
theorem C3_witness :
    (train env_fit_fails trained_model5 data3).1.is_trained =
      trained_model5.is_trained :=
  (C3_train_failure_state env_fit_fails trained_model5 data3 rfl).1

/-- C4: predict on a model that was never trained raises the "not trained"
error, for all input values. -/
theorem C4_predict_untrained (self : IsolationForestModel)
    (h : self.is_trained = false) (v t p : ℚ) :
    predict self v t p =
      Except.error "Model not trained. Call train() first." := by
  unfold predict
  rw [h]
  simp

/-- Witness for C4 on a freshly constructed model. -/
theorem C4_witness :
    predict untrained_model 12 30 200 =
      Except.error "Model not trained. Call train() first." :=
  C4_predict_untrained untrained_model rfl 12 30 200

/-- C8: after any successful load_model the trained flag is true,
unconditionally: any deserialized value is stored as the model without a
fitted-estimator check. -/
theorem C8_load_model_sets_trained (self : IsolationForestModel) (d : Detector) :
    (load_model self (some d)).1.is_trained = true ∧
    (load_model self (some d)).2 = true ∧
    (load_model self (some d)).1.model = d :=
  ⟨rfl, rfl, rfl⟩

/-- C7: a /retrain request whose training_data array has fewer than 100
entries is answered 400 regardless of the entries, and the model state is
unchanged. -/
theorem C7_retrain_too_few (env : TrainEnv) (model : IsolationForestModel)
    (td : List RawReading) (h : td.length < 100) :
    retrain env model (some ⟨some td⟩) =
      (model, ⟨400, some "Need at least 100 training samples"⟩) := by
  unfold retrain
  simp [h]

/-- Witness for C7 with an empty training_data array. -/
theorem C7_witness :
    retrain env0 untrained_model (some ⟨some []⟩) =
      (untrained_model, ⟨400, some "Need at least 100 training samples"⟩) :=
  C7_retrain_too_few env0 untrained_model [] (by decide)

/-- C10: a /predict body with all three fields present but a string-valued
voltage passes the field-presence check, and the handler answers 500 (the
range comparison raises and the broad handler catches it), not 400. -/
theorem C10_nonnumeric_predict :
    predict_route (some trained_model5)
        (some ⟨some (JsonVal.str "abc"), some (JsonVal.num 30),
          some (JsonVal.num 200)⟩) =
      ⟨500, some "Prediction failed"⟩ ∧
    (predict_route (some trained_model5)
        (some ⟨some (JsonVal.str "abc"), some (JsonVal.num 30),
          some (JsonVal.num 200)⟩)).status ≠ 400 :=
  ⟨rfl, by decide⟩

theorem build_features_toRaw (readings : List Reading) :
    build_features (readings.map Reading.toRaw) = some (featuresOf readings) := by
  induction readings with
  | nil => rfl
  | cons r rs ih =>
    unfold build_features featuresOf at ih ⊢
    simp only [List.map_cons, List.mapM_cons, ih]
    rfl

theorem countPair_map_map {α : Type} (f g : α → ℕ) (l : List α) (a b : ℕ) :
    countPair (l.map f) (l.map g) a b =
      (l.filter fun x => f x == a && g x == b).length := by
  induction l with
  | nil => rfl
  | cons x xs ih =>
    unfold countPair at ih ⊢
    simp only [List.map_cons, List.zip_cons_cons, List.filter_cons]
    by_cases hx : (f x == a && g x == b) = true
    · simp [hx, ih]
    · simp [hx, ih]

theorem binary_pred_eq (det : Detector) (ht hp : Bool) (x : ℚ × ℚ × ℚ) :
    ((to_binary (heuristic_label x) == (if ht then 1 else 0)) &&
      (to_binary (det.label x.1 x.2.1 x.2.2) == (if hp then 1 else 0))) =
      (heuristic_anomaly x == ht && det_flags_anomaly det x == hp) := by
  unfold to_binary heuristic_label heuristic_anomaly det_flags_anomaly
  by_cases h1 : x.1 < 10 ∨ x.2.1 > 40 ∨ x.2.2 < 100 <;>
    by_cases h2 : det.label x.1 x.2.1 x.2.2 = -1 <;>
      cases ht <;> cases hp <;> simp [h1, h2]

theorem countPair_eq_spec (det : Detector) (test : List (ℚ × ℚ × ℚ)) (ht hp : Bool) :
    countPair ((test.map heuristic_label).map to_binary)
      ((test.map fun x => det.label x.1 x.2.1 x.2.2).map to_binary)
      (if ht then 1 else 0) (if hp then 1 else 0) = spec_count det test ht hp := by
  unfold spec_count
  rw [List.map_map, List.map_map, countPair_map_map]
  refine congrArg List.length (List.filter_congr fun x _ => ?_)
  exact binary_pred_eq det ht hp x

theorem validation_of_eq_spec (det : Detector) (test : List (ℚ × ℚ × ℚ)) :
    validation_of det test =
      { precision := precision_score (spec_count det test true true)
          (spec_count det test false true),
        «recall» := recall_score (spec_count det test true true)
          (spec_count det test true false),
        f1_score := f1_score (spec_count det test true true)
          (spec_count det test false true) (spec_count det test true false),
        confusion_matrix :=
          ((spec_count det test false false, spec_count det test false true),
           (spec_count det test true false, spec_count det test true true)),
        test_samples := test.length } := by
  have h11 : countPair ((test.map heuristic_label).map to_binary)
      ((test.map fun x => det.label x.1 x.2.1 x.2.2).map to_binary) 1 1 =
      spec_count det test true true := countPair_eq_spec det test true true
  have h01 : countPair ((test.map heuristic_label).map to_binary)
      ((test.map fun x => det.label x.1 x.2.1 x.2.2).map to_binary) 0 1 =
      spec_count det test false true := countPair_eq_spec det test false true
  have h10 : countPair ((test.map heuristic_label).map to_binary)
      ((test.map fun x => det.label x.1 x.2.1 x.2.2).map to_binary) 1 0 =
      spec_count det test true false := countPair_eq_spec det test true false
  have h00 : countPair ((test.map heuristic_label).map to_binary)
      ((test.map fun x => det.label x.1 x.2.1 x.2.2).map to_binary) 0 0 =
      spec_count det test false false := countPair_eq_spec det test false false
  simp only [validation_of]
  rw [h11, h01, h10, h00]

/-- C6: on any successful call, train builds the feature rows in the fixed
column order [voltage, temperature, power_output], splits them with the
seeded permutation into a test part of ceil(n/5) rows (20%) and a train
part of the remaining rows (80%), stores exactly the detector produced by
fitting on the train part only, and stores the precision, recall, F1 and
confusion matrix of the detector's predictions on the test part against
the heuristic labels (anomalous iff voltage < 10 or temperature > 40 or
power_output < 100). -/
theorem C6_train_pipeline (env : TrainEnv) (self : IsolationForestModel)
    (readings : List Reading) (det : Detector)
    (hperm : ∀ l, List.Perm (env.perm l) l)
    (hfit : env.fit (train_test_split env.perm (featuresOf readings)).1 = some det) :
    build_features (readings.map Reading.toRaw) = some (featuresOf readings) ∧
    (train_test_split env.perm (featuresOf readings)).2.length =
      (readings.length + 4) / 5 ∧
    List.Perm ((train_test_split env.perm (featuresOf readings)).2 ++
      (train_test_split env.perm (featuresOf readings)).1) (featuresOf readings) ∧
    (train env self (readings.map Reading.toRaw)).1.model = det ∧
    (train env self (readings.map Reading.toRaw)).1.is_trained = true ∧
    (train env self (readings.map Reading.toRaw)).1.training_samples =
      readings.length ∧
    (train env self (readings.map Reading.toRaw)).2 = some
      { precision := precision_score
          (spec_count det (train_test_split env.perm (featuresOf readings)).2 true true)
          (spec_count det (train_test_split env.perm (featuresOf readings)).2 false true),
        «recall» := recall_score
          (spec_count det (train_test_split env.perm (featuresOf readings)).2 true true)
          (spec_count det (train_test_split env.perm (featuresOf readings)).2 true false),
        f1_score := f1_score
          (spec_count det (train_test_split env.perm (featuresOf readings)).2 true true)
          (spec_count det (train_test_split env.perm (featuresOf readings)).2 false true)
          (spec_count det (train_test_split env.perm (featuresOf readings)).2 true false),
        confusion_matrix :=
          ((spec_count det (train_test_split env.perm (featuresOf readings)).2 false false,
            spec_count det (train_test_split env.perm (featuresOf readings)).2 false true),
           (spec_count det (train_test_split env.perm (featuresOf readings)).2 true false,
            spec_count det (train_test_split env.perm (featuresOf readings)).2 true true)),
        test_samples := (train_test_split env.perm (featuresOf readings)).2.length } := by
  have hb := build_features_toRaw readings
  have htr := @train_success env self (readings.map Reading.toRaw)
    (featuresOf readings) det hb hfit
  have hlen : (featuresOf readings).length = readings.length := by
    simp [featuresOf]
  refine ⟨hb, ?_, ?_, ?_, ?_, ?_, ?_⟩
  · unfold train_test_split
    rw [List.length_take, (hperm _).length_eq, hlen]
    unfold n_test_of
    omega
  · show List.Perm ((env.perm (featuresOf readings)).take
        (n_test_of (featuresOf readings).length) ++
      (env.perm (featuresOf readings)).drop
        (n_test_of (featuresOf readings).length)) (featuresOf readings)
    rw [List.take_append_drop]
    exact hperm _
  · rw [htr]
  · rw [htr]
  · rw [htr]
    exact hlen
  · rw [htr]
    exact congrArg some (validation_of_eq_spec det _)

/-- Witness for C6 on five concrete readings with the identity shuffle and
a fit that returns the constant detector. -/
theorem C6_witness :
    build_features (readings5.map Reading.toRaw) = some (featuresOf readings5) ∧
    (train env0 untrained_model (readings5.map Reading.toRaw)).1.is_trained = true ∧
    (train env0 untrained_model (readings5.map Reading.toRaw)).1.training_samples = 5 := by
  have h := C6_train_pipeline env0 untrained_model readings5 d0
    (fun l => List.Perm.refl l) rfl
  refine ⟨h.1, h.2.2.2.2.1, ?_⟩
  rw [h.2.2.2.2.2.1]
  rfl
